import Mathlib

/-
  Verification of the qBittorrent-to-Transmission API bridge's consistency
  and caching core: the sync-manager merge semantics, the TTL-bounded detail
  cache, the identifier translator, the RPC tag echo, and torrent-get field
  filtering.  Definitions are shallow embeddings of the corresponding Python
  functions in src/.
-/

namespace QbtBridge

/-- Python/JSON values as they appear in the bridge's payloads and caches. -/
inductive PyVal : Type where
  | none : PyVal
  | bool (b : Bool) : PyVal
  | int (n : Int) : PyVal
  | str (s : String) : PyVal
  | list (xs : List PyVal) : PyVal
  | dict (kvs : List (String × PyVal)) : PyVal

/-- Python `str.lower()` on the ASCII digest strings the bridge handles,
    written over the character list so that it evaluates definitionally. -/
def pyLower (s : String) : String := ⟨s.data.map Char.toLower⟩

/-! ### Typed model of the sync cache (sync_manager.py)

The cache dictionaries are modelled as finitely-supported maps
`String → Option _`; a JSON object's field set is a `FieldMap`. -/

/-- A JSON object viewed as a map from keys to optional values. -/
abbrev FieldMap := String → Option PyVal

/-- The torrents snapshot: digest → torrent field map. -/
abbrev TorrentsMap := String → Option FieldMap

/-- Python `base.update(upd)` on dictionaries, as a map: keys of `upd` win,
    all other keys keep their `base` value. -/
def dictUpdate (base upd : FieldMap) : FieldMap :=
  fun k =>
    match upd k with
    | some v => some v
    | Option.none => base k

/-- The sync manager's cache (`self._cache` in sync_manager.py). -/
structure SyncCache where
  rid : Int
  torrents : TorrentsMap
  server_state : FieldMap
  categories : FieldMap
  tags : List PyVal
  trackers : FieldMap

/-- A well-formed `sync/maindata` payload.  Fields read with
    `data.get(key, {})` are modelled directly as maps (an absent key is the
    empty map, which makes the corresponding merge a no-op exactly as in the
    source); `rid` and `tags` are `Option` because key presence matters for
    them in `_do_sync`. -/
structure SyncPayload where
  rid : Option Int
  full_update : Bool
  torrents : TorrentsMap
  torrents_removed : List String
  server_state : FieldMap
  categories : FieldMap
  tags : Option (List PyVal)
  trackers : FieldMap

/-- The incremental torrents merge of `_do_sync` (sync_manager.py lines
    131-153): changed digests are overlaid (if present) or inserted (if
    absent), then every digest in `torrents_removed` is popped. -/
def mergeTorrents (old upd : TorrentsMap) (removed : List String) : TorrentsMap :=
  fun h =>
    if h ∈ removed then Option.none
    else
      match upd h with
      | some pd =>
        match old h with
        | some existing => some (dictUpdate existing pd)
        | Option.none => some pd
      | Option.none => old h

/-- `_do_sync` (sync_manager.py lines 105-165) on a well-formed, non-empty
    payload: update `rid`, then either replace every mapping wholesale (full
    update) or merge incrementally. -/
def doSync (c : SyncCache) (full : Bool) (p : SyncPayload) : SyncCache :=
  let rid0 : Int := if full then 0 else c.rid
  let newRid : Int := p.rid.getD rid0
  if p.full_update then
    { rid := newRid
      torrents := p.torrents
      server_state := p.server_state
      categories := p.categories
      tags := p.tags.getD []
      trackers := p.trackers }
  else
    { rid := newRid
      torrents := mergeTorrents c.torrents p.torrents p.torrents_removed
      server_state := dictUpdate c.server_state p.server_state
      categories := dictUpdate c.categories p.categories
      tags := p.tags.getD c.tags
      trackers := dictUpdate c.trackers p.trackers }

/-! Basic properties of `dictUpdate`, shared by several claims. -/

theorem dictUpdate_of_mem (base upd : FieldMap) (k : String) (v : PyVal)
    (h : upd k = some v) : dictUpdate base upd k = some v := by
  simp [dictUpdate, h]

theorem dictUpdate_of_not_mem (base upd : FieldMap) (k : String)
    (h : upd k = Option.none) : dictUpdate base upd k = base k := by
  simp [dictUpdate, h]

theorem dictUpdate_idem (base upd : FieldMap) :
    dictUpdate (dictUpdate base upd) upd = dictUpdate base upd := by
  funext k
  simp only [dictUpdate]
  cases upd k <;> rfl

theorem dictUpdate_self (m : FieldMap) : dictUpdate m m = m := by
  funext k
  simp only [dictUpdate]
  cases m k <;> rfl

theorem mergeTorrents_idem (old upd : TorrentsMap) (removed : List String) :
    mergeTorrents (mergeTorrents old upd removed) upd removed
      = mergeTorrents old upd removed := by
  funext h
  by_cases hr : h ∈ removed
  · simp [mergeTorrents, hr]
  · cases hu : upd h with
    | none => simp [mergeTorrents, hr, hu]
    | some pd =>
      cases ho : old h with
      | none => simp [mergeTorrents, hr, hu, ho, dictUpdate_self]
      | some e => simp [mergeTorrents, hr, hu, ho, dictUpdate_idem]

/-! ### Concrete fixtures used by the worked examples and witnesses -/

/-- A one-field torrent record, as in the spec's worked example. -/
def entryName (s : String) : FieldMap :=
  fun f => if f = "name" then some (.str s) else Option.none

theorem entryName_update (a b : String) :
    dictUpdate (entryName a) (entryName b) = entryName b := by
  funext f
  by_cases hf : f = "name" <;> simp [dictUpdate, entryName, hf]

/-- The spec's example snapshot holder: two torrents named A and B. -/
def exCache : SyncCache :=
  { rid := 0
    torrents := fun dg =>
      if dg = "aaaa1" then some (entryName "A")
      else if dg = "bbbb2" then some (entryName "B")
      else Option.none
    server_state := fun _ => Option.none
    categories := fun _ => Option.none
    tags := []
    trackers := fun _ => Option.none }

/-- The spec's example incremental delta: rename the first torrent, remove
    the second. -/
def exDelta : SyncPayload :=
  { rid := Option.none
    full_update := false
    torrents := fun dg => if dg = "aaaa1" then some (entryName "A2") else Option.none
    torrents_removed := ["bbbb2"]
    server_state := fun _ => Option.none
    categories := fun _ => Option.none
    tags := Option.none
    trackers := fun _ => Option.none }

/-- The snapshot the spec's example expects after the merge. -/
def exExpected : TorrentsMap :=
  fun dg => if dg = "aaaa1" then some (entryName "A2") else Option.none

/-- A concrete full-update payload for witnesses. -/
def wPayloadFull : SyncPayload :=
  { rid := some 5
    full_update := true
    torrents := fun dg => if dg = "d1" then some (entryName "N") else Option.none
    torrents_removed := []
    server_state := fun _ => Option.none
    categories := fun _ => Option.none
    tags := some [.str "t"]
    trackers := fun _ => Option.none }

/-- A concrete empty cache for witnesses. -/
def wCacheEmpty : SyncCache :=
  { rid := 1
    torrents := fun _ => Option.none
    server_state := fun _ => Option.none
    categories := fun _ => Option.none
    tags := []
    trackers := fun _ => Option.none }

/-! ### Claims about the sync merge -/

/-- C1: an incremental sync merges per changed digest: an already-present
    entry is overlaid field by field (fields absent from the delta keep
    their previous value, the record is not replaced); an absent digest is
    inserted as a new entry; and the spec's worked example holds: from the
    two-entry snapshot, the delta that renames one entry and removes the
    other yields exactly the one-entry snapshot with the updated name. -/
theorem incremental_merge_per_digest :
    (∀ (c : SyncCache) (p : SyncPayload) (dg : String) (e pd : FieldMap),
      p.full_update = false → dg ∉ p.torrents_removed → p.torrents dg = some pd →
      c.torrents dg = some e →
      (doSync c false p).torrents dg = some (dictUpdate e pd)) ∧
    (∀ (e pd : FieldMap) (f : String),
      (pd f = Option.none → dictUpdate e pd f = e f) ∧
      (∀ v, pd f = some v → dictUpdate e pd f = some v)) ∧
    (∀ (c : SyncCache) (p : SyncPayload) (dg : String) (pd : FieldMap),
      p.full_update = false → dg ∉ p.torrents_removed → p.torrents dg = some pd →
      c.torrents dg = Option.none →
      (doSync c false p).torrents dg = some pd) ∧
    (doSync exCache false exDelta).torrents = exExpected := by
  refine ⟨?_, ?_, ?_, ?_⟩
  · intro c p dg e pd hp hrm hu ho
    simp [doSync, hp, mergeTorrents, hrm, hu, ho]
  · intro e pd f
    exact ⟨fun h => dictUpdate_of_not_mem e pd f h, fun v h => dictUpdate_of_mem e pd f v h⟩
  · intro c p dg pd hp hrm hu ho
    simp [doSync, hp, mergeTorrents, hrm, hu, ho]
  · funext dg
    by_cases h1 : dg = "aaaa1"
    · subst h1
      have hrm : ("aaaa1" : String) ∉ ({"bbbb2"} : List String) := by decide
      simp [doSync, exDelta, exCache, exExpected, mergeTorrents, entryName_update]
    · by_cases h2 : dg = "bbbb2"
      · subst h2
        simp [doSync, exDelta, exCache, exExpected, mergeTorrents]
      · simp [doSync, exDelta, exCache, exExpected, mergeTorrents, h1, h2]

/-- Witness for C1: the overlay conjunct evaluated on the spec's example. -/
theorem incremental_merge_per_digest_witness :
    exDelta.full_update = false ∧ "aaaa1" ∉ exDelta.torrents_removed ∧
    (doSync exCache false exDelta).torrents "aaaa1"
      = some (dictUpdate (entryName "A") (entryName "A2")) :=
  ⟨rfl, by decide,
    incremental_merge_per_digest.1 exCache exDelta "aaaa1" (entryName "A")
      (entryName "A2") rfl (by decide) rfl rfl⟩

/-- C5: a full-update payload replaces the five mappings wholesale, so the
    resulting torrents, server state, categories, tags and trackers do not
    depend on the prior cache state at all. -/
theorem full_update_replaces_wholesale (p : SyncPayload) (hp : p.full_update = true)
    (c1 c2 : SyncCache) (f1 f2 : Bool) :
    (doSync c1 f1 p).torrents = (doSync c2 f2 p).torrents ∧
    (doSync c1 f1 p).server_state = (doSync c2 f2 p).server_state ∧
    (doSync c1 f1 p).categories = (doSync c2 f2 p).categories ∧
    (doSync c1 f1 p).tags = (doSync c2 f2 p).tags ∧
    (doSync c1 f1 p).trackers = (doSync c2 f2 p).trackers ∧
    (doSync c1 f1 p).torrents = p.torrents ∧
    (doSync c1 f1 p).server_state = p.server_state ∧
    (doSync c1 f1 p).categories = p.categories ∧
    (doSync c1 f1 p).tags = p.tags.getD [] ∧
    (doSync c1 f1 p).trackers = p.trackers := by
  simp [doSync, hp]

/-- Witness for C5: the full payload applied to the empty cache and to the
    example two-torrent cache gives the same mappings. -/
theorem full_update_replaces_wholesale_witness :
    wPayloadFull.full_update = true ∧
    ((doSync wCacheEmpty true wPayloadFull).torrents
        = (doSync exCache false wPayloadFull).torrents ∧
      (doSync wCacheEmpty true wPayloadFull).server_state
        = (doSync exCache false wPayloadFull).server_state ∧
      (doSync wCacheEmpty true wPayloadFull).categories
        = (doSync exCache false wPayloadFull).categories ∧
      (doSync wCacheEmpty true wPayloadFull).tags
        = (doSync exCache false wPayloadFull).tags ∧
      (doSync wCacheEmpty true wPayloadFull).trackers
        = (doSync exCache false wPayloadFull).trackers ∧
      (doSync wCacheEmpty true wPayloadFull).torrents = wPayloadFull.torrents ∧
      (doSync wCacheEmpty true wPayloadFull).server_state = wPayloadFull.server_state ∧
      (doSync wCacheEmpty true wPayloadFull).categories = wPayloadFull.categories ∧
      (doSync wCacheEmpty true wPayloadFull).tags = wPayloadFull.tags.getD [] ∧
      (doSync wCacheEmpty true wPayloadFull).trackers = wPayloadFull.trackers) :=
  ⟨rfl, full_update_replaces_wholesale wPayloadFull rfl wCacheEmpty exCache true false⟩

/-- C6: applying the same incremental payload twice yields the same cache
    state (rid, torrents, server state, categories, tags, trackers) as
    applying it once. -/
theorem incremental_merge_idempotent (p : SyncPayload) (hp : p.full_update = false)
    (c : SyncCache) :
    doSync (doSync c false p) false p = doSync c false p := by
  simp only [doSync, hp, Bool.false_eq_true, if_false]
  simp only [SyncCache.mk.injEq]
  refine ⟨?_, mergeTorrents_idem _ _ _, dictUpdate_idem _ _, dictUpdate_idem _ _,
    ?_, dictUpdate_idem _ _⟩
  · cases p.rid <;> rfl
  · cases p.tags <;> rfl

/-- Witness for C6: the spec's example delta is idempotent on the example
    cache. -/
theorem incremental_merge_idempotent_witness :
    exDelta.full_update = false ∧
    doSync (doSync exCache false exDelta) false exDelta = doSync exCache false exDelta :=
  ⟨rfl, incremental_merge_idempotent exDelta rfl exCache⟩

/-- C7: after an incremental merge every digest listed in the payload's
    torrents_removed list is absent from the snapshot, whether or not it was
    present before, and entries neither removed nor updated are untouched. -/
theorem removed_digests_absent (p : SyncPayload) (hp : p.full_update = false)
    (c : SyncCache) :
    (∀ dg ∈ p.torrents_removed, (doSync c false p).torrents dg = Option.none) ∧
    (∀ dg, dg ∉ p.torrents_removed → p.torrents dg = Option.none →
      (doSync c false p).torrents dg = c.torrents dg) := by
  constructor
  · intro dg hm
    simp [doSync, hp, mergeTorrents, hm]
  · intro dg hm hu
    simp [doSync, hp, mergeTorrents, hm, hu]

/-- Witness for C7: removing the example's second digest empties its entry,
    both from the populated cache and from the empty one. -/
theorem removed_digests_absent_witness :
    exDelta.full_update = false ∧ "bbbb2" ∈ exDelta.torrents_removed ∧
    (doSync exCache false exDelta).torrents "bbbb2" = Option.none ∧
    (doSync wCacheEmpty false exDelta).torrents "bbbb2" = Option.none :=
  ⟨rfl, by decide,
    (removed_digests_absent exDelta rfl exCache).1 "bbbb2" (by decide),
    (removed_digests_absent exDelta rfl wCacheEmpty).1 "bbbb2" (by decide)⟩

/-! ### Detail cache model (sync_manager.py `get_torrent_details`)

The adapter is an oracle; every upstream call the function makes is recorded
as a `FetchEvent`, so "how many fetches occurred" is part of the result. -/

/-- An upstream API call made by `get_torrent_details`. -/
inductive FetchEvent : Type where
  | files (digest : String)
  | trackers (digest : String)
  | properties (digest : String)
deriving DecidableEq

/-- One `_detail_cache` entry.  Each field's default is the default used by
    the source's `.get(key, default)` reads, so a freshly created `{}` entry
    is the record of defaults. -/
structure DetailEntry where
  files : PyVal := .list []
  has_files : Bool := false
  trackers : PyVal := .list []
  has_trackers : Bool := false
  properties : PyVal := .dict []
  has_properties : Bool := false
  timestamp : Int := 0

/-- The detail cache: lowercase digest → entry. -/
abbrev DetailCache := String → Option DetailEntry

/-- The `_detail_cache_ttl` constant (30 seconds). -/
def detailCacheTtl : Int := 30

/-- The upstream client as an oracle of per-digest detail data. -/
structure QbtEnv where
  get_torrent_files : String → PyVal
  get_torrent_trackers : String → PyVal
  get_torrent_properties : String → PyVal

/-- The dictionary returned by `get_torrent_details`. -/
structure DetailResult where
  files : PyVal
  trackers : PyVal
  properties : PyVal

/-- The cache-hit test of `get_torrent_details` (sync_manager.py lines
    229-252): an entry must exist, be younger than the TTL, and hold every
    requested sub-record; only then is the request served from the cache. -/
def cacheServed? (dc : DetailCache) (now : Int) (dg : String)
    (need_files need_trackers need_properties : Bool) : Option DetailResult :=
  match dc dg with
  | some cached =>
    if now - cached.timestamp < detailCacheTtl then
      if (!need_files || cached.has_files) && (!need_trackers || cached.has_trackers)
          && (!need_properties || cached.has_properties) then
        some { files := if need_files then cached.files else .list []
               trackers := if need_trackers then cached.trackers else .list []
               properties := if need_properties then cached.properties else .dict [] }
      else Option.none
    else Option.none
  | Option.none => Option.none

/-- The upstream calls made on the miss path of `get_torrent_details`
    (sync_manager.py lines 263-284): one per requested sub-record. -/
def fetchEventsOf (dg : String) (need_files need_trackers need_properties : Bool) :
    List FetchEvent :=
  (if need_files then [FetchEvent.files dg] else [])
    ++ (if need_trackers then [FetchEvent.trackers dg] else [])
    ++ (if need_properties then [FetchEvent.properties dg] else [])

/-- The result dictionary built on the miss path (sync_manager.py lines
    263-284): requested sub-records come from the adapter, the rest are
    empty placeholders. -/
def fetchedResult (env : QbtEnv) (dg : String)
    (need_files need_trackers need_properties : Bool) : DetailResult :=
  { files := if need_files then env.get_torrent_files dg else .list []
    trackers := if need_trackers then env.get_torrent_trackers dg else .list []
    properties := if need_properties then env.get_torrent_properties dg else .dict [] }

/-- The cache-entry merge on the miss path (sync_manager.py lines 286-302):
    only the fetched parts are overwritten, the previous entry's other parts
    survive, and the single timestamp becomes `now`. -/
def toppedUpEntry (env : QbtEnv) (entry0 : DetailEntry) (now : Int) (dg : String)
    (need_files need_trackers need_properties : Bool) : DetailEntry :=
  { files := if need_files then env.get_torrent_files dg else entry0.files
    has_files := need_files || entry0.has_files
    trackers := if need_trackers then env.get_torrent_trackers dg else entry0.trackers
    has_trackers := need_trackers || entry0.has_trackers
    properties := if need_properties then env.get_torrent_properties dg else entry0.properties
    has_properties := need_properties || entry0.has_properties
    timestamp := now }

/-- `get_torrent_details` (sync_manager.py lines 211-304): serve from the
    cache when `cacheServed?` succeeds; otherwise fetch every requested
    sub-record from the adapter, merge the fetched parts into the entry
    (creating it if absent, preserving unrequested parts), and stamp the
    entry with `now`.  Returns (result, new cache, upstream calls made). -/
def get_torrent_details (env : QbtEnv) (dc : DetailCache) (now : Int) (hash0 : String)
    (need_files need_trackers need_properties : Bool) :
    DetailResult × DetailCache × List FetchEvent :=
  let dg := pyLower hash0
  match cacheServed? dc now dg need_files need_trackers need_properties with
  | some r => (r, dc, [])
  | Option.none =>
    let entry1 := toppedUpEntry env ((dc dg).getD {}) now dg
      need_files need_trackers need_properties
    (fetchedResult env dg need_files need_trackers need_properties,
      fun k => if k = dg then some entry1 else dc k,
      fetchEventsOf dg need_files need_trackers need_properties)

/-- A concrete adapter oracle for counterexamples and witnesses. -/
def env0 : QbtEnv :=
  { get_torrent_files := fun _ => .list [.str "freshF"]
    get_torrent_trackers := fun _ => .list [.str "freshT"]
    get_torrent_properties := fun _ => .dict [("p", .int 1)] }

/-- A detail cache holding, for digest "aaa", a fresh files list and
    nothing else. -/
def dcPart : DetailCache :=
  fun k =>
    if k = "aaa" then
      some { files := .list [.str "F1"], has_files := true, timestamp := 0 }
    else Option.none

/-- C3 counterexample: digest "aaa" has a fresh cached files list with its
    presence flag set, yet a request for files together with trackers
    refetches files from upstream (the hit test is all-or-nothing and the
    miss path fetches every requested sub-record), and the returned files
    value is the refetched one, not the cached one. -/
theorem detail_cache_partial_refetch_counterexample :
    (dcPart "aaa").isSome = true ∧
    ((dcPart "aaa").getD {}).has_files = true ∧
    (0 : Int) - ((dcPart "aaa").getD {}).timestamp < detailCacheTtl ∧
    FetchEvent.files "aaa" ∈ (get_torrent_details env0 dcPart 0 "aaa" true true false).2.2 ∧
    (get_torrent_details env0 dcPart 0 "aaa" true true false).2.2
      = [FetchEvent.files "aaa", FetchEvent.trackers "aaa"] ∧
    (get_torrent_details env0 dcPart 0 "aaa" true true false).1.files
      = PyVal.list [.str "freshF"] ∧
    ((dcPart "aaa").getD {}).files = PyVal.list [.str "F1"] := by
  refine ⟨rfl, rfl, by norm_num [dcPart, detailCacheTtl], by decide, ?_, rfl, rfl⟩
  rfl

/-- C3 (amended): the hit test is all-or-nothing over the requested
    sub-records: if the entry is fresh and holds every requested sub-record
    the call is served from the cache with no upstream fetch and an
    unchanged cache; otherwise every requested sub-record (cached or not) is
    fetched, the entry is topped up preserving unrequested sub-records, and
    the timestamp becomes now.  The two-step files-then-trackers scenario
    within the TTL still makes exactly one files fetch and one trackers
    fetch. -/
theorem detail_cache_all_or_nothing :
    (∀ (env : QbtEnv) (dc : DetailCache) (now : Int) (h : String)
        (nf nt np : Bool) (r : DetailResult),
      cacheServed? dc now (pyLower h) nf nt np = some r →
      get_torrent_details env dc now h nf nt np = (r, dc, [])) ∧
    (∀ (env : QbtEnv) (dc : DetailCache) (now : Int) (h : String) (nf nt np : Bool),
      cacheServed? dc now (pyLower h) nf nt np = Option.none →
      get_torrent_details env dc now h nf nt np
        = (fetchedResult env (pyLower h) nf nt np,
            fun k => if k = (pyLower h) then
              some (toppedUpEntry env ((dc (pyLower h)).getD {}) now (pyLower h) nf nt np)
            else dc k,
            fetchEventsOf (pyLower h) nf nt np)) ∧
    (∀ (env : QbtEnv) (e0 : DetailEntry) (now : Int) (dg : String) (nt np : Bool),
      (toppedUpEntry env e0 now dg false nt np).files = e0.files ∧
      (toppedUpEntry env e0 now dg false nt np).has_files = e0.has_files) ∧
    (∀ (env : QbtEnv) (e0 : DetailEntry) (now : Int) (dg : String) (nf np : Bool),
      (toppedUpEntry env e0 now dg nf false np).trackers = e0.trackers ∧
      (toppedUpEntry env e0 now dg nf false np).has_trackers = e0.has_trackers) ∧
    (∀ (env : QbtEnv) (e0 : DetailEntry) (now : Int) (dg : String) (nf nt : Bool),
      (toppedUpEntry env e0 now dg nf nt false).properties = e0.properties ∧
      (toppedUpEntry env e0 now dg nf nt false).has_properties = e0.has_properties) ∧
    (∀ (env : QbtEnv) (dc : DetailCache) (t0 t1 : Int) (h : String),
      dc (pyLower h) = Option.none → t1 - t0 < detailCacheTtl →
      (get_torrent_details env dc t0 h true false false).2.2
        = [FetchEvent.files (pyLower h)] ∧
      (get_torrent_details env
          (get_torrent_details env dc t0 h true false false).2.1 t1 h
          false true false).2.2
        = [FetchEvent.trackers (pyLower h)]) := by
  refine ⟨?_, ?_, ?_, ?_, ?_, ?_⟩
  · intro env dc now h nf nt np r hhit
    simp [get_torrent_details, hhit]
  · intro env dc now h nf nt np hmiss
    simp [get_torrent_details, hmiss]
  · intro env e0 now dg nt np
    exact ⟨rfl, rfl⟩
  · intro env e0 now dg nf np
    exact ⟨rfl, rfl⟩
  · intro env e0 now dg nf nt
    exact ⟨rfl, rfl⟩
  · intro env dc t0 t1 h hnone hfresh
    have hmiss1 : cacheServed? dc t0 (pyLower h) true false false = Option.none := by
      simp [cacheServed?, hnone]
    constructor
    · simp [get_torrent_details, hmiss1, fetchEventsOf]
    · have hc1 : (get_torrent_details env dc t0 h true false false).2.1
          = fun k => if k = (pyLower h) then
              some (toppedUpEntry env ((dc (pyLower h)).getD {}) t0 (pyLower h) true false false)
            else dc k := by
        simp [get_torrent_details, hmiss1]
      rw [hc1]
      have hmiss2 : cacheServed?
          (fun k => if k = (pyLower h) then
            some (toppedUpEntry env ((dc (pyLower h)).getD {}) t0 (pyLower h) true false false)
          else dc k) t1 (pyLower h) false true false = Option.none := by
        simp [cacheServed?, toppedUpEntry, hfresh, hnone]
      simp [get_torrent_details, hmiss2, fetchEventsOf]

/-- Witness for C3 (amended): the partially-cached "aaa" entry from the
    counterexample goes down the miss path, and a files-then-trackers pair
    of calls on a fresh digest "bbb" makes exactly one fetch of each kind. -/
theorem detail_cache_all_or_nothing_witness :
    (cacheServed? dcPart 0 "aaa" true true false = Option.none ∧
      get_torrent_details env0 dcPart 0 "aaa" true true false
        = (fetchedResult env0 "aaa" true true false,
            fun k => if k = "aaa" then
              some (toppedUpEntry env0 ((dcPart "aaa").getD {}) 0 "aaa" true true false)
            else dcPart k,
            fetchEventsOf "aaa" true true false)) ∧
    (dcPart "bbb" = Option.none ∧ (5 : Int) - 0 < detailCacheTtl ∧
      (get_torrent_details env0 dcPart 0 "bbb" true false false).2.2
        = [FetchEvent.files "bbb"] ∧
      (get_torrent_details env0
          (get_torrent_details env0 dcPart 0 "bbb" true false false).2.1 5 "bbb"
          false true false).2.2
        = [FetchEvent.trackers "bbb"]) := by
  constructor
  · exact ⟨rfl, detail_cache_all_or_nothing.2.1 env0 dcPart 0 "aaa" true true false rfl⟩
  · refine ⟨rfl, by norm_num [detailCacheTtl], ?_⟩
    exact detail_cache_all_or_nothing.2.2.2.2.2 env0 dcPart 0 5 "bbb" rfl
      (by norm_num [detailCacheTtl])

/-- C8: once an entry's age reaches the TTL, a request for a sub-record the
    entry already holds (presence flag set) is not served from the cache: the
    sub-record is fetched upstream again and the freshly fetched value is
    both returned and stored with the new timestamp. -/
theorem detail_cache_expiry (env : QbtEnv) (dc : DetailCache) (now : Int)
    (h : String) (e : DetailEntry) (hc : dc (pyLower h) = some e)
    (hage : detailCacheTtl ≤ now - e.timestamp) :
    (e.has_files = true →
      (get_torrent_details env dc now h true false false).1.files
          = env.get_torrent_files (pyLower h) ∧
      FetchEvent.files (pyLower h)
          ∈ (get_torrent_details env dc now h true false false).2.2) ∧
    (e.has_trackers = true →
      (get_torrent_details env dc now h false true false).1.trackers
          = env.get_torrent_trackers (pyLower h) ∧
      FetchEvent.trackers (pyLower h)
          ∈ (get_torrent_details env dc now h false true false).2.2) ∧
    (e.has_properties = true →
      (get_torrent_details env dc now h false false true).1.properties
          = env.get_torrent_properties (pyLower h) ∧
      FetchEvent.properties (pyLower h)
          ∈ (get_torrent_details env dc now h false false true).2.2) := by
  have hstale : ¬ (now - e.timestamp < detailCacheTtl) := not_lt.mpr hage
  refine ⟨?_, ?_, ?_⟩ <;> intro hflag
  · have hmiss : cacheServed? dc now (pyLower h) true false false = Option.none := by
      simp [cacheServed?, hc, hstale]
    exact ⟨by simp [get_torrent_details, hmiss, fetchedResult],
      by simp [get_torrent_details, hmiss, fetchEventsOf]⟩
  · have hmiss : cacheServed? dc now (pyLower h) false true false = Option.none := by
      simp [cacheServed?, hc, hstale]
    exact ⟨by simp [get_torrent_details, hmiss, fetchedResult],
      by simp [get_torrent_details, hmiss, fetchEventsOf]⟩
  · have hmiss : cacheServed? dc now (pyLower h) false false true = Option.none := by
      simp [cacheServed?, hc, hstale]
    exact ⟨by simp [get_torrent_details, hmiss, fetchedResult],
      by simp [get_torrent_details, hmiss, fetchEventsOf]⟩

/-- Witness for C8: the "aaa" entry (timestamp 0, files flag set) queried at
    time 30 — age exactly the TTL — is refetched. -/
theorem detail_cache_expiry_witness :
    dcPart "aaa" = some { files := .list [.str "F1"], has_files := true, timestamp := 0 } ∧
    detailCacheTtl ≤ (30 : Int) - 0 ∧
    ((get_torrent_details env0 dcPart 30 "aaa" true false false).1.files
        = env0.get_torrent_files "aaa" ∧
      FetchEvent.files "aaa"
        ∈ (get_torrent_details env0 dcPart 30 "aaa" true false false).2.2) :=
  ⟨rfl, by norm_num [detailCacheTtl],
    (detail_cache_expiry env0 dcPart 30 "aaa"
        { files := .list [.str "F1"], has_files := true, timestamp := 0 }
        rfl (by norm_num [detailCacheTtl])).1 rfl⟩

/-! ### Identifier translator (transmission_translator.py `get_torrent_ids`) -/

/-- A snapshot entry as the translator sees it (only its hash is read). -/
structure QTorrent where
  hash : String

/-- The value of one hexadecimal digit, as accepted by Python `int(_, 16)`. -/
def hexDigit? (c : Char) : Option Nat :=
  if '0' ≤ c ∧ c ≤ '9' then some (c.toNat - '0'.toNat)
  else if 'a' ≤ c ∧ c ≤ 'f' then some (c.toNat - 'a'.toNat + 10)
  else if 'A' ≤ c ∧ c ≤ 'F' then some (c.toNat - 'A'.toNat + 10)
  else Option.none

/-- Python `int(s[:8], 16)`: the string's first 8 characters read as a
    base-16 integer; `none` models the ValueError on malformed input. -/
def parseHex8 (s : String) : Option Nat :=
  let cs := s.data.take 8
  if cs.isEmpty then Option.none
  else cs.foldl (fun acc c => acc.bind (fun a => (hexDigit? c).map (fun d => a * 16 + d))) (some 0)

/-- The content-derived ID of a snapshot entry:
    `int(torrent['hash'].lower()[:8], 16)`. -/
def contentId? (t : QTorrent) : Option Nat := parseHex8 (pyLower t.hash)

/-- Outcome of the literal-ID scan over the sorted snapshot
    (transmission_translator.py lines 281-290). -/
inductive ScanOutcome : Type where
  | found (digest : String)
  | nomatch
  | raised
deriving DecidableEq

/-- The first-match scan: walk the snapshot in order comparing each entry's
    content-derived ID against the target; a malformed digest raises a
    ValueError, aborting the scan. -/
def scanContentId (target : Int) : List QTorrent → ScanOutcome
  | [] => ScanOutcome.nomatch
  | t :: rest =>
    match contentId? t with
    | Option.none => ScanOutcome.raised
    | some v => if (v : Int) = target then ScanOutcome.found (pyLower t.hash)
                else scanContentId target rest

/-- Resolution of one integer ID (transmission_translator.py lines
    276-299): first the content-derived-ID scan over all entries, then the
    1-based positional fallback into the sorted snapshot; if neither
    resolves (or the scan raised inside the try block) the ID is dropped. -/
def resolveIntId (ts : List QTorrent) (target : Int) : Option String :=
  match scanContentId target ts with
  | ScanOutcome.found dg => some dg
  | ScanOutcome.raised => Option.none
  | ScanOutcome.nomatch =>
    if 1 ≤ target ∧ target ≤ (ts.length : Int) then
      (ts[(target - 1).toNat]?).map (fun t => pyLower t.hash)
    else Option.none

/-- Python `int(x)` on a JSON value: ints pass through, bools are 0/1,
    numeric strings parse in base 10; anything else raises (none). -/
def pyToInt : PyVal → Option Int
  | .int n => some n
  | .bool b => some (if b then 1 else 0)
  | .str s => s.toInt?
  | _ => Option.none

/-- One element of the ids list (transmission_translator.py lines 269-303):
    a 40-character string is used verbatim, lowercased, with no existence
    check; any other value is converted with `int()` and resolved; a
    conversion or resolution failure drops just this one ID. -/
def resolveIdVal (ts : List QTorrent) (v : PyVal) : Option String :=
  match v with
  | .str s =>
    if s.length = 40 then some (pyLower s)
    else (pyToInt (.str s)).bind (fun t => resolveIntId ts t)
  | w => (pyToInt w).bind (fun t => resolveIntId ts t)

/-- `get_torrent_ids` (transmission_translator.py lines 243-308).  The
    first argument is `arguments.get('ids')` (none = key absent, which the
    source turns into `[]`).  A `none` result means "no filter requested";
    `some hashes` is the resolved batch with unresolvable IDs dropped. -/
def get_torrent_ids (idsArg : Option PyVal) (ts : List QTorrent) : Option (List String) :=
  match idsArg.getD (.list []) with
  | .none => Option.none
  | .list [] => Option.none
  | .str "" => Option.none
  | .str s =>
    if s = "recently-active" then Option.none
    else some (([PyVal.str s]).filterMap (resolveIdVal ts))
  | .list xs => some (xs.filterMap (resolveIdVal ts))
  | w => some (([w]).filterMap (resolveIdVal ts))

theorem scanContentId_append_nomatch (target : Int) (pre rest : List QTorrent)
    (hpre : ∀ u ∈ pre, ∃ w, contentId? u = some w ∧ (w : Int) ≠ target) :
    scanContentId target (pre ++ rest) = scanContentId target rest := by
  induction pre with
  | nil => rfl
  | cons u pre ih =>
    obtain ⟨w, hw, hne⟩ := hpre u (by simp)
    simp only [List.cons_append, scanContentId, hw, if_neg hne]
    exact ih (fun u hu => hpre u (by simp [hu]))

theorem scanContentId_nomatch (target : Int) (ts : List QTorrent)
    (h : ∀ u ∈ ts, ∃ w, contentId? u = some w ∧ (w : Int) ≠ target) :
    scanContentId target ts = ScanOutcome.nomatch := by
  have := scanContentId_append_nomatch target ts [] h
  simpa using this

/-- C2: integer ID resolution first scans every snapshot entry for a
    matching content-derived ID (the digest's first 8 hex characters read
    as a base-16 integer); only when no entry matches does it fall back to
    a 1-based positional index; when neither resolves, that single ID is
    dropped while the rest of the batch is still resolved.  Consequently,
    for three sorted digests d1 < d2 < d3, the content-derived ID of d2
    resolves to d2 even when that integer is also a valid position, and an
    integer matching nothing is dropped without aborting the batch. -/
theorem get_torrent_ids_resolution_order :
    (∀ (pre post : List QTorrent) (t : QTorrent) (target : Int) (v : Nat),
      (∀ u ∈ pre, ∃ w, contentId? u = some w ∧ (w : Int) ≠ target) →
      contentId? t = some v → (v : Int) = target →
      resolveIntId (pre ++ t :: post) target = some (pyLower t.hash)) ∧
    (∀ (ts : List QTorrent) (target : Int),
      (∀ u ∈ ts, ∃ w, contentId? u = some w ∧ (w : Int) ≠ target) →
      1 ≤ target → target ≤ (ts.length : Int) →
      resolveIntId ts target = (ts[(target - 1).toNat]?).map (fun t => pyLower t.hash)) ∧
    (∀ (ts : List QTorrent) (target : Int),
      (∀ u ∈ ts, ∃ w, contentId? u = some w ∧ (w : Int) ≠ target) →
      ¬ (1 ≤ target ∧ target ≤ (ts.length : Int)) →
      resolveIntId ts target = Option.none) ∧
    (∀ (xs : List PyVal) (ts : List QTorrent), xs ≠ [] →
      get_torrent_ids (some (.list xs)) ts = some (xs.filterMap (resolveIdVal ts))) ∧
    (∀ (ts : List QTorrent) (n : Int), resolveIdVal ts (.int n) = resolveIntId ts n) ∧
    (∀ (t1 t2 t3 : QTorrent) (v1 v2 : Nat),
      t1.hash.data < t2.hash.data → t2.hash.data < t3.hash.data →
      contentId? t1 = some v1 → contentId? t2 = some v2 → v1 ≠ v2 →
      get_torrent_ids (some (.list [.int (v2 : Int)])) [t1, t2, t3]
        = some [pyLower t2.hash]) ∧
    (∀ (t1 t2 t3 : QTorrent) (v1 v2 v3 : Nat) (x : Int),
      contentId? t1 = some v1 → contentId? t2 = some v2 → contentId? t3 = some v3 →
      v1 ≠ v2 → (v1 : Int) ≠ x → (v2 : Int) ≠ x → (v3 : Int) ≠ x →
      ¬ (1 ≤ x ∧ x ≤ 3) →
      get_torrent_ids (some (.list [.int (v2 : Int), .int x])) [t1, t2, t3]
        = some [pyLower t2.hash]) := by
  have hscan3 : ∀ (t1 t2 t3 : QTorrent) (v1 v2 : Nat), contentId? t1 = some v1 →
      contentId? t2 = some v2 → v1 ≠ v2 →
      scanContentId (v2 : Int) [t1, t2, t3] = ScanOutcome.found (pyLower t2.hash) := by
    intro t1 t2 t3 v1 v2 hc1 hc2 hne
    have hne' : ((v1 : Int) = (v2 : Int)) = False := by
      simp only [eq_iff_iff, iff_false]
      exact_mod_cast hne
    simp [scanContentId, hc1, hc2, hne']
  refine ⟨?_, ?_, ?_, ?_, ?_, ?_, ?_⟩
  · intro pre post t target v hpre hv hvt
    unfold resolveIntId
    rw [scanContentId_append_nomatch target pre (t :: post) hpre]
    simp [scanContentId, hv, hvt]
  · intro ts target h h1 h2
    have hs := scanContentId_nomatch target ts h
    simp only [resolveIntId, hs]
    rw [if_pos ⟨h1, h2⟩]
  · intro ts target h hno
    have hs := scanContentId_nomatch target ts h
    simp only [resolveIntId, hs]
    rw [if_neg hno]
  · intro xs ts hxs
    cases xs with
    | nil => exact absurd rfl hxs
    | cons x xs => simp [get_torrent_ids]
  · intro ts n
    simp [resolveIdVal, pyToInt]
  · intro t1 t2 t3 v1 v2 _ _ hc1 hc2 hne
    have hs := hscan3 t1 t2 t3 v1 v2 hc1 hc2 hne
    have hr2 : resolveIntId [t1, t2, t3] (v2 : Int) = some (pyLower t2.hash) := by
      simp only [resolveIntId, hs]
    simp [get_torrent_ids, resolveIdVal, pyToInt, hr2]
  · intro t1 t2 t3 v1 v2 v3 x hc1 hc2 hc3 hne h1x h2x h3x hxr
    have hs := hscan3 t1 t2 t3 v1 v2 hc1 hc2 hne
    have hsx : scanContentId x [t1, t2, t3] = ScanOutcome.nomatch := by
      refine scanContentId_nomatch x [t1, t2, t3] ?_
      intro u hu
      simp only [List.mem_cons, List.not_mem_nil, or_false] at hu
      rcases hu with h | h | h
      · exact ⟨v1, by rw [h]; exact hc1, by rw [h] at *; exact h1x⟩
      · exact ⟨v2, by rw [h]; exact hc2, by rw [h] at *; exact h2x⟩
      · exact ⟨v3, by rw [h]; exact hc3, by rw [h] at *; exact h3x⟩
    have hrx : resolveIntId [t1, t2, t3] x = Option.none := by
      simp only [resolveIntId, hsx]
      rw [if_neg (by simpa using hxr)]
    have hr2 : resolveIntId [t1, t2, t3] (v2 : Int) = some (pyLower t2.hash) := by
      simp only [resolveIntId, hs]
    simp [get_torrent_ids, resolveIdVal, pyToInt, hr2, hrx]

/-- The three sorted 40-hex-digit digests used to witness C2: content IDs
    0, 1 and 2, so digest 2's content ID (1) is also a valid position. -/
def wT1 : QTorrent := ⟨"0000000000000000000000000000000000000000"⟩

/-- Second witness digest (see `wT1`). -/
def wT2 : QTorrent := ⟨"0000000100000000000000000000000000000000"⟩

/-- Third witness digest (see `wT1`). -/
def wT3 : QTorrent := ⟨"0000000200000000000000000000000000000000"⟩

/-- Witness for C2: requesting content ID 1 (also a valid position, where it
    would mean the first digest) resolves to the second digest, and a batch
    holding the unresolvable ID 99 still resolves the rest. -/
theorem get_torrent_ids_resolution_order_witness :
    (wT1.hash.data < wT2.hash.data ∧ wT2.hash.data < wT3.hash.data ∧ contentId? wT1 = some 0 ∧
      contentId? wT2 = some 1 ∧ (0 : Nat) ≠ 1) ∧
    get_torrent_ids (some (.list [.int 1])) [wT1, wT2, wT3]
      = some [pyLower wT2.hash] ∧
    get_torrent_ids (some (.list [.int 1, .int 99])) [wT1, wT2, wT3]
      = some [pyLower wT2.hash] :=
  ⟨⟨by decide, by decide, by decide, by decide, by decide⟩,
    get_torrent_ids_resolution_order.2.2.2.2.2.1 wT1 wT2 wT3 0 1
      (by decide) (by decide) (by decide) (by decide) (by decide),
    get_torrent_ids_resolution_order.2.2.2.2.2.2 wT1 wT2 wT3 0 1 2 99
      (by decide) (by decide) (by decide) (by decide) (by decide) (by decide)
      (by decide) (by decide)⟩

/-! ### RPC response shape (bridge.py `transmission_rpc`) -/

/-- The JSON body built by `transmission_rpc` (bridge.py lines 726-816): the
    success reply for a known method or the error reply for an unknown one.
    `tag` is `data.get('tag')` from the request body — none when the request
    has no tag key — and the reply dict always carries a "tag" key, whose
    value serializes Python's None as JSON null. -/
def transmissionRpcResponse (knownMethod : Bool) (result : PyVal) (tag : Option PyVal) :
    List (String × PyVal) :=
  if knownMethod then
    [("arguments", result), ("result", .str "success"), ("tag", tag.getD .none)]
  else
    [("result", .str "error"), ("tag", tag.getD .none)]

/-- C4 counterexample: a request without a tag still yields a response
    containing the "tag" key (bound to JSON null), so the claim that the
    response then "contains no tag key at all" fails on the code. -/
theorem tag_echo_counterexample :
    List.lookup "tag" (transmissionRpcResponse true (.dict []) Option.none)
      = some PyVal.none ∧
    "tag" ∈ (transmissionRpcResponse true (.dict []) Option.none).map Prod.fst := by
  exact ⟨rfl, by decide⟩

/-- C4 (amended): the response always carries a "tag" key: it holds the
    request's tag value when one is present and JSON null when the request
    has none; no non-null tag value is ever invented. -/
theorem tag_echo_amended :
    (∀ (known : Bool) (result : PyVal) (t : PyVal),
      List.lookup "tag" (transmissionRpcResponse known result (some t)) = some t) ∧
    (∀ (known : Bool) (result : PyVal),
      List.lookup "tag" (transmissionRpcResponse known result Option.none)
        = some PyVal.none) := by
  constructor
  · intro known result t
    cases known <;> rfl
  · intro known result
    cases known <;> rfl

/-! ### torrent-get field filtering (handlers.py `handle_torrent_get`) -/

/-- The per-torrent field filter of handle_torrent_get (handlers.py lines
    57-62): under a non-empty (truthy) fields list, keep exactly the
    translated torrent's pairs whose key appears in the list; an empty or
    absent fields list leaves the object untouched. -/
def applyFieldFilter (fields : List String) (tt : List (String × PyVal)) :
    List (String × PyVal) :=
  if fields.isEmpty then tt
  else tt.filter (fun kv => decide (kv.1 ∈ fields))

/-- The torrents array handle_torrent_get returns (handlers.py lines
    42-67), given the translated objects of the selected torrents: each one
    passes through the field filter. -/
def handleTorrentGetTorrents (fields : List String)
    (translated : List (List (String × PyVal))) : List (List (String × PyVal)) :=
  translated.map (applyFieldFilter fields)

/-- C10: with a non-empty fields list, every torrent object in the response
    holds only keys from the list, every kept pair comes from the translated
    torrent (no key is invented), and every pair of the translated torrent
    whose key is listed is kept; with an empty or absent fields list the
    complete translated object is returned unfiltered. -/
theorem torrent_get_field_filtering (fields : List String)
    (tts : List (List (String × PyVal))) (out : List (String × PyVal))
    (hmem : out ∈ handleTorrentGetTorrents fields tts) :
    ∃ tt ∈ tts, (fields = [] → out = tt) ∧
      (fields ≠ [] →
        (∀ kv ∈ out, kv.1 ∈ fields ∧ kv ∈ tt) ∧
        (∀ kv ∈ tt, kv.1 ∈ fields → kv ∈ out)) := by
  obtain ⟨tt, htt, rfl⟩ := List.mem_map.mp hmem
  refine ⟨tt, htt, ?_, ?_⟩
  · intro hf
    simp [applyFieldFilter, hf]
  · intro hf
    have hne : fields.isEmpty = false := by
      cases fields with
      | nil => exact absurd rfl hf
      | cons a l => rfl
    constructor
    · intro kv hkv
      simp only [applyFieldFilter, hne, Bool.false_eq_true, if_false,
        List.mem_filter, decide_eq_true_eq] at hkv
      exact ⟨hkv.2, hkv.1⟩
    · intro kv hkv hk
      simp only [applyFieldFilter, hne, Bool.false_eq_true, if_false,
        List.mem_filter, decide_eq_true_eq]
      exact ⟨hkv, hk⟩

/-- A concrete translated torrent object, used to witness C10. -/
def wTT : List (String × PyVal) := [("name", .str "X"), ("id", .int 1)]

/-- Witness for C10: filtering the two-key object down to just "name". -/
theorem torrent_get_field_filtering_witness :
    applyFieldFilter ["name"] wTT ∈ handleTorrentGetTorrents ["name"] [wTT] ∧
    ∃ tt ∈ [wTT], ((["name"] : List String) = [] → applyFieldFilter ["name"] wTT = tt) ∧
      ((["name"] : List String) ≠ [] →
        (∀ kv ∈ applyFieldFilter ["name"] wTT, kv.1 ∈ (["name"] : List String) ∧ kv ∈ tt) ∧
        (∀ kv ∈ tt, kv.1 ∈ (["name"] : List String) → kv ∈ applyFieldFilter ["name"] wTT)) :=
  ⟨by simp [handleTorrentGetTorrents],
    torrent_get_field_filtering ["name"] [wTT] (applyFieldFilter ["name"] wTT)
      (by simp [handleTorrentGetTorrents])⟩

/-! ### Dynamic (untyped) model of `_do_sync` for error behaviour (C9)

The typed `doSync` covers well-formed payloads; malformed payloads raise
Python exceptions partway through the in-place mutations, so this model
works on untyped values and returns the cache as of the raise point
together with a flag recording whether the cycle raised. -/

/-- Python truthiness (`if not data:`). -/
def PyVal.truthy : PyVal → Bool
  | .none => false
  | .bool b => b
  | .int n => decide (n ≠ 0)
  | .str s => decide (s ≠ "")
  | .list xs => !xs.isEmpty
  | .dict kvs => !kvs.isEmpty

/-- Python `d[k] = v` on a dict: replace in place, or append a new key. -/
def dictSet : List (String × PyVal) → String → PyVal → List (String × PyVal)
  | [], k, v => [(k, v)]
  | (k', v') :: rest, k, v =>
    if k' = k then (k', v) :: rest else (k', v') :: dictSet rest k v

/-- Python `d.pop(k, None)`: drop the key if present, otherwise no-op. -/
def dictPop (kvs : List (String × PyVal)) (k : String) : List (String × PyVal) :=
  kvs.filter (fun kv => kv.1 != k)

/-- Python `base.update(arg)` on a dict `base`: merges when `arg` is a
    dict; any other payload value raises before mutating anything
    (TypeError for non-iterables, ValueError for strings; a JSON list could
    only update if it held 2-element pair lists, which maindata payloads
    never carry, so it is modelled as raising too). -/
def dictUpdateDyn (base : List (String × PyVal)) : PyVal → Option (List (String × PyVal))
  | .dict kvs => some (kvs.foldl (fun acc kv => dictSet acc kv.1 kv.2) base)
  | _ => Option.none

/-- `self._cache[field].update(data[field])`: raises when the cached value
    or the payload value is not a dict. -/
def updStep (cur v : PyVal) : Option PyVal :=
  match cur with
  | .dict kvs =>
    match dictUpdateDyn kvs v with
    | some s' => some (.dict s')
    | Option.none => Option.none
  | _ => Option.none

/-- The sync cache with Python-level values (`self._cache`), untyped so
    that partially-applied malformed updates can be stated. -/
structure DynCache where
  rid : PyVal
  torrents : PyVal
  server_state : PyVal
  categories : PyVal
  tags : PyVal
  trackers : PyVal

/-- The changed-torrents loop (sync_manager.py lines 136-146) over the
    payload's items, mutating the torrents dict as it goes.  `.error`
    carries the mapping as of the raise: a non-dict existing entry raises in
    the `.get` of line 139 and a non-dict partial record in the `.keys()`
    of line 140, both before the merge of line 142; a non-dict new record
    is inserted first (line 145) and only then raises in the f-string of
    line 146. -/
def applyTorrentUpdates (torrents : List (String × PyVal)) :
    List (String × PyVal) → Except (List (String × PyVal)) (List (String × PyVal))
  | [] => Except.ok torrents
  | (dg, pd) :: rest =>
    match List.lookup dg torrents with
    | some existing =>
      match existing, pd with
      | .dict ekvs, .dict pkvs =>
        applyTorrentUpdates
          (dictSet torrents dg (.dict (pkvs.foldl (fun acc kv => dictSet acc kv.1 kv.2) ekvs)))
          rest
      | _, _ => Except.error torrents
    | Option.none =>
      match pd with
      | .dict _ => applyTorrentUpdates (dictSet torrents dg pd) rest
      | _ => Except.error (dictSet torrents dg pd)

/-- The removal loop (sync_manager.py lines 149-153): iterate the
    torrents_removed value and `pop` each element.  Iterating a string
    pops its one-character keys, iterating a dict pops its keys, and a
    non-iterable raises.  An unhashable element (a nested list or dict)
    would raise in `pop`; maindata removal lists never carry those, so
    other hashable non-strings are modelled as the no-ops they are (they
    never equal a string key). -/
def applyRemovals (torrents : List (String × PyVal)) :
    PyVal → Option (List (String × PyVal))
  | .list xs => some (xs.foldl (fun acc x =>
      match x with
      | .str s => dictPop acc s
      | _ => acc) torrents)
  | .str s => some (s.data.foldl (fun acc ch => dictPop acc (String.mk [ch])) torrents)
  | .dict kvs => some (kvs.foldl (fun acc kv => dictPop acc kv.1) torrents)
  | _ => Option.none

/-- `_do_sync` (sync_manager.py lines 105-165) on an arbitrary, possibly
    malformed fetched value `data`.  Mutations happen in source order under
    the lock; the Bool is true when the cycle raised, in which case the
    returned cache is exactly the state at the raise point (the exception
    propagates to _sync_loop, which logs it). -/
def doSyncDyn (c : DynCache) (full : Bool) (data : PyVal) : DynCache × Bool :=
  let rid := if full then PyVal.int 0 else c.rid
  if !data.truthy then (c, false)
  else
    match data with
    | .dict kvs =>
      let newRid := (List.lookup "rid" kvs).getD rid
      let c1 : DynCache := { c with rid := newRid }
      let isFull := ((List.lookup "full_update" kvs).getD (.bool false)).truthy
      if isFull then
        ({ rid := newRid
           torrents := (List.lookup "torrents" kvs).getD (.dict [])
           server_state := (List.lookup "server_state" kvs).getD (.dict [])
           categories := (List.lookup "categories" kvs).getD (.dict [])
           tags := (List.lookup "tags" kvs).getD (.list [])
           trackers := (List.lookup "trackers" kvs).getD (.dict []) }, false)
      else
        let tu := (List.lookup "torrents" kvs).getD (.dict [])
        let afterUpd : Except DynCache DynCache :=
          if tu.truthy then
            match c1.torrents, tu with
            | .dict tkvs, .dict ukvs =>
              match applyTorrentUpdates tkvs ukvs with
              | Except.ok t' => Except.ok { c1 with torrents := .dict t' }
              | Except.error t' => Except.error { c1 with torrents := .dict t' }
            | .dict _, _ => Except.error c1
            | _, _ => Except.error c1
          else Except.ok c1
        match afterUpd with
        | Except.error c' => (c', true)
        | Except.ok c2 =>
          let tr := (List.lookup "torrents_removed" kvs).getD (.list [])
          let afterRem : Except DynCache DynCache :=
            if tr.truthy then
              match c2.torrents with
              | .dict tkvs =>
                match applyRemovals tkvs tr with
                | some t' => Except.ok { c2 with torrents := .dict t' }
                | Option.none => Except.error c2
              | _ => Except.error c2
            else Except.ok c2
          match afterRem with
          | Except.error c' => (c', true)
          | Except.ok c3 =>
            let afterSS : Except DynCache DynCache :=
              match List.lookup "server_state" kvs with
              | some v =>
                match updStep c3.server_state v with
                | some s' => Except.ok { c3 with server_state := s' }
                | Option.none => Except.error c3
              | Option.none => Except.ok c3
            match afterSS with
            | Except.error c' => (c', true)
            | Except.ok c4 =>
              let afterCat : Except DynCache DynCache :=
                match List.lookup "categories" kvs with
                | some v =>
                  match updStep c4.categories v with
                  | some s' => Except.ok { c4 with categories := s' }
                  | Option.none => Except.error c4
                | Option.none => Except.ok c4
              match afterCat with
              | Except.error c' => (c', true)
              | Except.ok c5 =>
                let c6 : DynCache :=
                  match List.lookup "tags" kvs with
                  | some v => { c5 with tags := v }
                  | Option.none => c5
                match List.lookup "trackers" kvs with
                | some v =>
                  match updStep c6.trackers v with
                  | some s' => ({ c6 with trackers := s' }, false)
                  | Option.none => (c6, true)
                | Option.none => (c6, false)
    | _ => (c, true)

/-- A well-typed starting cache for the C9 scenarios. -/
def dynCache0 : DynCache :=
  { rid := .int 3
    torrents := .dict [("h1", .dict [("name", .str "X")])]
    server_state := .dict [("dl_info_speed", .int 1)]
    categories := .dict []
    tags := .list []
    trackers := .dict [] }

/-- A malformed incremental payload: valid rid and torrents delta, but a
    server_state field that is an integer instead of an object. -/
def badPayload : PyVal :=
  .dict [("rid", .int 7),
         ("torrents", .dict [("h1", .dict [("name", .str "Y")])]),
         ("server_state", .int 5)]

/-- C9 counterexample: on the malformed payload the cycle raises at the
    server_state update, but the mutations already performed persist — the
    snapshot and the rid have changed — contradicting "the cycle is
    skipped, nothing is partially applied". -/
theorem malformed_payload_partial_apply_counterexample :
    (doSyncDyn dynCache0 false badPayload).2 = true ∧
    (doSyncDyn dynCache0 false badPayload).1.torrents
      = PyVal.dict [("h1", .dict [("name", .str "Y")])] ∧
    dynCache0.torrents = PyVal.dict [("h1", .dict [("name", .str "X")])] ∧
    (doSyncDyn dynCache0 false badPayload).1.torrents ≠ dynCache0.torrents ∧
    (doSyncDyn dynCache0 false badPayload).1.rid = PyVal.int 7 ∧
    dynCache0.rid = PyVal.int 3 := by
  have key : PyVal.dict [("h1", PyVal.dict [("name", PyVal.str "Y")])]
      ≠ PyVal.dict [("h1", PyVal.dict [("name", PyVal.str "X")])] := by
    simp
  exact ⟨rfl, rfl, rfl, fun h => key h, rfl, rfl⟩

/-- C9 (amended): an empty (falsy) fetched payload skips the cycle and
    leaves the cache — torrents, server state, rid and all — unchanged; a
    malformed incremental payload instead raises partway, aborting the
    cycle at the failing field, so mutations already applied persist (on
    the example payload the rid update and the torrent merge survive the
    malformed server_state) and the remaining steps never run. -/
theorem sync_skip_on_empty_payload :
    (∀ (c : DynCache) (full : Bool) (data : PyVal),
      data.truthy = false → doSyncDyn c full data = (c, false)) ∧
    doSyncDyn dynCache0 false badPayload
      = ({ rid := .int 7
           torrents := .dict [("h1", .dict [("name", .str "Y")])]
           server_state := dynCache0.server_state
           categories := dynCache0.categories
           tags := dynCache0.tags
           trackers := dynCache0.trackers }, true) := by
  constructor
  · intro c full data h
    simp [doSyncDyn, h]
  · rfl

/-- Witness for C9 (amended): the empty dict and the None returned on a
    failed fetch are both falsy, and both leave the example cache alone. -/
theorem sync_skip_on_empty_payload_witness :
    (PyVal.dict []).truthy = false ∧ PyVal.none.truthy = false ∧
    doSyncDyn dynCache0 false (.dict []) = (dynCache0, false) ∧
    doSyncDyn dynCache0 true PyVal.none = (dynCache0, false) :=
  ⟨rfl, rfl, sync_skip_on_empty_payload.1 dynCache0 false (.dict []) rfl,
    sync_skip_on_empty_payload.1 dynCache0 true PyVal.none rfl⟩
